import Mathlib

/-!
Verification of the ownership demonstration program (`src/main.rs`).

The program is a straight-line `main` plus a handful of helper functions on
heap-allocated strings. We embed the value-level semantics shallowly:

* an owned `String` buffer is a Lean `String`;
* the `i32` scalars are `Int`;
* `println!` is modelled by collecting the printed lines into a `List String`
  (each call contributes exactly one line);
* calling through an immutable borrow `&s` returns the scalar result and
  hands the unchanged referent back to the caller;
* calling through a mutable borrow `&mut s` replaces the caller's referent
  with the callee's updated buffer.

The static ownership discipline (moves invalidating their source variable)
is modelled separately, as a trace of ownership events extracted from
`main`, with a checker that detects a use of a moved-from variable.
-/

namespace Ownership

/-- Rust `String::from(lit)`: construct an owned heap buffer holding `lit`. -/
def stringFrom (lit : String) : String := lit

/-- Rust `s.push_str(lit)`: append the literal `lit` to the buffer `s`. -/
def pushStr (s lit : String) : String := s ++ lit

/-- Rust `s.len()`: the length of the buffer in bytes (UTF-8). -/
def strLen (s : String) : Nat := s.utf8ByteSize

/-- Rust `s.clone()`: a deep copy, a second independent buffer with the same
contents. -/
def clone (s : String) : String := s

/-- `fn takes_ownership(some_string: String)`: consumes the buffer and prints
it; we return the single printed line. -/
def takes_ownership (some_string : String) : List String := [some_string]

/-- `fn makes_copy(some_integer: i32)`: prints the scalar; we return the
single printed line. -/
def makes_copy (some_integer : Int) : List String := [toString some_integer]

/-- `fn gives_ownership() -> String`: builds `"hello"` internally and returns
it, moving ownership out to the caller. -/
def gives_ownership : String := stringFrom "hello"

/-- `fn takes_and_gives_back(a_string: String) -> String`: returns the very
buffer it received. -/
def takes_and_gives_back (a_string : String) : String := a_string

/-- `fn calculate_length(s: String) -> (String, usize)`: returns the buffer
together with its length. -/
def calculate_length (s : String) : String × Nat :=
  let length := strLen s
  (s, length)

/-- `fn calculate_length_ref(s: &String) -> usize`: reads the referent and
returns only its length. -/
def calculate_length_ref (s : String) : Nat := strLen s

/-- `fn change(some_string: &mut String)`: appends `", world"` through the
mutable reference; we return the updated referent. -/
def change (some_string : String) : String := pushStr some_string ", world"

/-- Semantics of a call through an immutable borrow `f(&s)`: the callee sees
the referent, produces a scalar, and the caller keeps the referent unchanged. -/
def immutableBorrowCall (f : String → Nat) (s : String) : String × Nat :=
  (s, f s)

/-- Semantics of a call through a mutable borrow `f(&mut s)`: the callee's
updated buffer becomes the caller's referent. -/
def mutableBorrowCall (f : String → String) (s : String) : String := f s

/-- The initial buffer of the mutate-in-place step:
`let mut str = String::from("Hello");`. -/
def mutateInPlaceInit : String := stringFrom "Hello"

/-- The buffer of the mutate-in-place step after
`str.push_str(", World!");`. -/
def mutateInPlaceBuffer : String := pushStr mutateInPlaceInit ", World!"

/-- The lines printed by the mutate-in-place step: one `println!("{}", str)`. -/
def mutateInPlaceOutput : List String := [mutateInPlaceBuffer]

/-- Line printed by the construct-and-print step: `println!("{}", s)` with
`s = String::from("hello")`. -/
def constructLine : String := stringFrom "hello"

/-- Line printed by the clone step:
`println!("my_s1 = {}, my_s2 = {}", my_s1, my_s2)` where
`my_s1 = String::from("hello")` and `my_s2 = s1.clone()` with
`s1 = String::from("hello")`. -/
def cloneLine : String :=
  let my_s1 := stringFrom "hello"
  let my_s2 := clone (stringFrom "hello")
  "my_s1 = " ++ my_s1 ++ ", my_s2 = " ++ my_s2

/-- Line printed by the scalar-copy step:
`println!("my_p = {}, my_q = {}", my_p, my_q)` with `my_p = 5; my_q = my_p`. -/
def copyLine : String :=
  let my_p : Int := 5
  let my_q := my_p
  "my_p = " ++ toString my_p ++ ", my_q = " ++ toString my_q

/-- Line printed by the return-pair step:
`let (s_5, len) = calculate_length(s_4); println!("The length of '{}' is {}", s_5, len)`
with `s_4 = String::from("hello")`. -/
def returnPairLine : String :=
  let p := calculate_length (stringFrom "hello")
  "The length of '" ++ p.1 ++ "' is " ++ toString p.2

/-- Line printed by the immutable-borrow step:
`let len = calculate_length_ref(&str_1); println!("The length of '{}' is {}", str_1, len)`
with `str_1 = String::from("hello")`. -/
def refBorrowLine : String :=
  let r := immutableBorrowCall calculate_length_ref (stringFrom "hello")
  "The length of '" ++ r.1 ++ "' is " ++ toString r.2

/-- The full sequence of lines `main` prints to standard output, in order. -/
def mainOutput : List String :=
  [constructLine] ++ mutateInPlaceOutput ++ [cloneLine, copyLine]
  ++ takes_ownership (stringFrom "hello")
  ++ makes_copy 5
  ++ [returnPairLine, refBorrowLine]

/-- The demonstration steps of the component design, in the fixed order the
program performs them. -/
inductive StepId
  | constructAndPrint
  | mutateInPlace
  | moveStep
  | cloneStep
  | copyScalar
  | passByValueTransfer
  | passByValueCopy
  | returnTransfer
  | roundTrip
  | returnPair
  | immutableBorrow
  | mutableBorrow
  | referenceScope
  | notExecutedConflict
  deriving DecidableEq

/-- The ordered list of demonstration steps. -/
def demoSteps : List StepId :=
  [.constructAndPrint, .mutateInPlace, .moveStep, .cloneStep, .copyScalar,
   .passByValueTransfer, .passByValueCopy, .returnTransfer, .roundTrip,
   .returnPair, .immutableBorrow, .mutableBorrow, .referenceScope,
   .notExecutedConflict]

/-- The lines each demonstration step prints, read off the corresponding
segment of `main`. The move, return-transfer, round-trip, mutable-borrow and
reference-scope segments contain no `println!`; the conflicting-borrow
example is commented out and never runs. -/
def stepOutput : StepId → List String
  | .constructAndPrint => [constructLine]
  | .mutateInPlace => mutateInPlaceOutput
  | .moveStep => []
  | .cloneStep => [cloneLine]
  | .copyScalar => [copyLine]
  | .passByValueTransfer => takes_ownership (stringFrom "hello")
  | .passByValueCopy => makes_copy 5
  | .returnTransfer => []
  | .roundTrip => []
  | .returnPair => [returnPairLine]
  | .immutableBorrow => [refBorrowLine]
  | .mutableBorrow => []
  | .referenceScope => []
  | .notExecutedConflict => []

/-- Ownership events on the owned string buffers of `main`, identified by
their variable names. -/
inductive Event
  | create (v : String)
  | moveTo (src dst : String)
  | cloneTo (src dst : String)
  | passByValue (v : String)
  | borrow (v : String)
  deriving DecidableEq

/-- The trace of ownership events performed by `main` on its owned string
buffers, in program order. `moveTo`/`passByValue` consume their source;
`borrow` covers every read (`println!` arguments, `&`/`&mut` references,
mutation through the owner). -/
def mainEvents : List Event :=
  [.create "s", .borrow "s",
   .create "str", .borrow "str", .borrow "str",
   .create "s1",
   .moveTo "s1" "s2",
   .create "my_s1",
   .cloneTo "s1" "my_s2",
   .borrow "my_s1", .borrow "my_s2",
   .create "my_str",
   .passByValue "my_str",
   .create "s_1",
   .create "s_2",
   .passByValue "s_2", .create "s_3",
   .create "s_4",
   .passByValue "s_4", .create "s_5",
   .borrow "s_5",
   .create "str_1",
   .borrow "str_1", .borrow "str_1",
   .create "str_2",
   .borrow "str_2",
   .create "str_3",
   .borrow "str_3",
   .borrow "str_3"]

/-- Does the event read variable `v` (move it, clone from it, pass it by
value, or borrow it)? -/
def usesVar (v : String) : Event → Bool
  | .moveTo src _ => src == v
  | .cloneTo src _ => src == v
  | .passByValue w => w == v
  | .borrow w => w == v
  | .create _ => false

/-- Does the event move variable `v` out, leaving it invalid? -/
def consumesVar (v : String) : Event → Bool
  | .moveTo src _ => src == v
  | .passByValue w => w == v
  | _ => false

/-- `useAfterMove v es = true` iff the trace `es` moves `v` out and later
reads `v` again — the ownership violation the borrow checker rejects. -/
def useAfterMove (v : String) : List Event → Bool
  | [] => false
  | e :: rest =>
    if consumesVar v e then rest.any (usesVar v)
    else useAfterMove v rest

/-- Scan the trace for the first clone event, tracking which variables have
been moved out; report whether the clone's source variable is still a valid
owner at that point (`none` when the trace contains no clone). -/
def sourceValidAtClone (consumed : List String) : List Event → Option Bool
  | [] => none
  | .moveTo src _ :: rest => sourceValidAtClone (src :: consumed) rest
  | .passByValue v :: rest => sourceValidAtClone (v :: consumed) rest
  | .cloneTo src _ :: _ => some (!(consumed.contains src))
  | _ :: rest => sourceValidAtClone consumed rest

end Ownership

namespace Ownership

/-- C1 (counterexample): the mutate-in-place step does not build its buffer
from `"hello"` (it uses `"Hello"`), the printed line is not
`"hello, world!"`, and `main` never prints `"hello, world!"` at all. -/
theorem c1_counterexample :
    mutateInPlaceInit ≠ stringFrom "hello" ∧
    mutateInPlaceOutput ≠ ["hello, world!"] ∧
    mainOutput.count "hello, world!" = 0 := by
  refine ⟨?_, ?_, ?_⟩ <;> decide

/-- C1 (amended): the mutate-in-place step constructs its owned buffer from
the literal `"Hello"`, appends `", World!"` to it, and prints the resulting
buffer exactly once, the printed line reading exactly `"Hello, World!"`. -/
theorem c1_mutate_in_place :
    mutateInPlaceInit = stringFrom "Hello" ∧
    mutateInPlaceBuffer = pushStr mutateInPlaceInit ", World!" ∧
    mutateInPlaceOutput = ["Hello, World!"] ∧
    mainOutput.count "Hello, World!" = 1 := by
  refine ⟨rfl, rfl, ?_, ?_⟩ <;> decide

/-- C2 (code evaluation at the failing input): `main` moves `s1` out
(`let s2 = s1;`) and afterwards still reads `s1` (`let my_s2 = s1.clone();`),
so the trace of `main` does contain a use of a moved-from variable — the
exact situation the claim says never occurs in `main`. -/
theorem c2_use_after_move : useAfterMove "s1" mainEvents = true := by decide

/-- C3: `calculate_length` returns the pair of the original buffer and its
length; on the buffer built from `"hello"` it returns the buffer still
reading `"hello"` with the scalar 5, and the caller's printed line is
`"The length of 'hello' is 5"`, which `main` prints. -/
theorem c3_calculate_length :
    (∀ s : String, calculate_length s = (s, strLen s)) ∧
    calculate_length (stringFrom "hello") = (stringFrom "hello", 5) ∧
    returnPairLine = "The length of 'hello' is 5" ∧
    returnPairLine ∈ mainOutput := by
  refine ⟨fun s => rfl, by decide, by decide, by decide⟩

/-- C4: calling `calculate_length_ref` through an immutable borrow returns
the referent's length and hands the referent back to the caller unchanged;
on the buffer built from `"hello"` the result is 5 and the buffer still
reads `"hello"` after the call. -/
theorem c4_calculate_length_ref :
    (∀ s : String,
      immutableBorrowCall calculate_length_ref s = (s, strLen s)) ∧
    immutableBorrowCall calculate_length_ref (stringFrom "hello")
      = (stringFrom "hello", 5) := by
  refine ⟨fun s => rfl, by decide⟩

/-- C5: calling `change` through a mutable borrow turns the referent into its
former contents followed by `", world"`, and the caller observes the
mutation; the buffer holding `"hello"` becomes `"hello, world"`. -/
theorem c5_change :
    (∀ s : String, mutableBorrowCall change s = s ++ ", world") ∧
    mutableBorrowCall change (stringFrom "hello") = "hello, world" := by
  refine ⟨fun s => rfl, by decide⟩

/-- C6: `takes_and_gives_back` is the identity on owned buffers: it returns
exactly the buffer it received. -/
theorem c6_takes_and_gives_back :
    ∀ s : String, takes_and_gives_back s = s := fun _ => rfl

/-- C7 (code evaluation at the failing input): at the one clone event of
`main` (`let my_s2 = s1.clone();`) the source variable `s1` has already been
moved out by `let s2 = s1;`, so the clone's source buffer is not still valid
at the point of cloning. -/
theorem c7_clone_source_moved :
    sourceValidAtClone [] mainEvents = some false := by decide

/-- C8 (counterexample): the move step is one of the demonstration steps and
prints zero lines, not exactly one. -/
theorem c8_counterexample :
    StepId.moveStep ∈ demoSteps ∧ (stepOutput StepId.moveStep).length = 0 := by
  refine ⟨by decide, by decide⟩

/-- C8 (amended): no demonstration step prints more than one line; the
construct-and-print, mutate-in-place, clone, scalar-copy, pass-by-value
transfer, pass-by-value copy, return-pair and immutable-borrow steps each
print exactly one line of fixed literal text interpolated with their current
values, and the remaining steps print none. -/
theorem c8_one_line_per_printing_step :
    (demoSteps.all fun step => (stepOutput step).length ≤ 1) = true ∧
    (demoSteps.filter fun step => (stepOutput step).length == 1)
      = [.constructAndPrint, .mutateInPlace, .cloneStep, .copyScalar,
         .passByValueTransfer, .passByValueCopy, .returnPair,
         .immutableBorrow] := by
  refine ⟨by decide, by decide⟩

/-- C9: the borrowing and pass-through length computations agree: for every
buffer, `calculate_length_ref` on a reference to it equals the second
component of `calculate_length` on it, both being its length. -/
theorem c9_length_agreement :
    ∀ s : String,
      calculate_length_ref s = (calculate_length s).2 ∧
      calculate_length_ref s = strLen s := fun _ => ⟨rfl, rfl⟩

/-- C10: `main` reads no input and its output is the fixed list of lines
`"hello"`, `"Hello, World!"`, `"my_s1 = hello, my_s2 = hello"`,
`"my_p = 5, my_q = 5"`, `"hello"`, `"5"`, `"The length of 'hello' is 5"`,
`"The length of 'hello' is 5"`, in that order; being a constant of the
embedding, every run produces this same sequence. -/
theorem c10_main_output :
    mainOutput =
      ["hello", "Hello, World!", "my_s1 = hello, my_s2 = hello",
       "my_p = 5, my_q = 5", "hello", "5",
       "The length of 'hello' is 5", "The length of 'hello' is 5"] := by
  decide

end Ownership
